import Mathlib

/-!
Verification of the multi-tenant API admission-control layer of the
AI-Cyber-God repository (token-bucket rate limiting, tier policy
resolution, violation tracking / IP blocking), together with two
frontend components (smart-contract analyzer, threat-intelligence feed).

The admission-control implementation (`api_rate_limiter.py`) is referenced
by the repository's documentation but its source is not present in the
repository snapshot; those definitions are therefore modelled from the
specification text, as marked in their doc comments.  The frontend
components are translated from `src/components/SmartContractAnalyzer.tsx`
and `src/components/ThreatIntelligence.tsx`.

Real-valued quantities (token counts, clock readings, durations) are
modelled as rationals; clock readings are seconds.
-/

namespace AdmissionControl

/-- Modelled from the spec: `window_kind ∈ {minute, hour, day}` (§3 TokenBucket). -/
inductive WindowKind where
  | minute
  | hour
  | day
deriving DecidableEq, Repr

/-- Modelled from the spec: per-window quota parameters of a `RateLimitPolicy` —
`(max_tokens, refill_tokens_per_second)` (§3). -/
structure WindowLimit where
  maxTokens : ℚ
  refillRate : ℚ
deriving DecidableEq, Repr

/-- Modelled from the spec: `RateLimitPolicy` — three independent per-window
bucket parameter pairs (§3). -/
structure RateLimitPolicy where
  perMinute : WindowLimit
  perHour : WindowLimit
  perDay : WindowLimit
deriving DecidableEq, Repr

/-- Select the limit of one window of a policy. -/
def RateLimitPolicy.limit (p : RateLimitPolicy) : WindowKind → WindowLimit
  | .minute => p.perMinute
  | .hour => p.perHour
  | .day => p.perDay

/-- Modelled from the spec: the configuration error raised for a tier outside
the four defined ones (§4.1, §7: `UnknownTierError`). -/
inductive UnknownTierError where
  | unknownTier (tier : String)
deriving DecidableEq, Repr

/-- Modelled from the spec: default starter quotas — 100/min, 5000/hour,
50000/day (§6); refill rate taken as capacity per window length in seconds. -/
def starterPolicy : RateLimitPolicy :=
  { perMinute := ⟨100, 100 / 60⟩
    perHour := ⟨5000, 5000 / 3600⟩
    perDay := ⟨50000, 50000 / 86400⟩ }

/-- Modelled from the spec: default professional quotas — 500/min, 25000/hour,
500000/day (§6). -/
def professionalPolicy : RateLimitPolicy :=
  { perMinute := ⟨500, 500 / 60⟩
    perHour := ⟨25000, 25000 / 3600⟩
    perDay := ⟨500000, 500000 / 86400⟩ }

/-- Modelled from the spec: default enterprise quotas — 2000/min, 100000/hour,
2000000/day (§6). -/
def enterprisePolicy : RateLimitPolicy :=
  { perMinute := ⟨2000, 2000 / 60⟩
    perHour := ⟨100000, 100000 / 3600⟩
    perDay := ⟨2000000, 2000000 / 86400⟩ }

/-- Modelled from the spec: default enterprise_plus quotas — 10000/min,
500000/hour, 10000000/day (§6). -/
def enterprisePlusPolicy : RateLimitPolicy :=
  { perMinute := ⟨10000, 10000 / 60⟩
    perHour := ⟨500000, 500000 / 3600⟩
    perDay := ⟨10000000, 10000000 / 86400⟩ }

/-- Modelled from the spec: `PolicyCatalog.resolve(tier)` — total for the four
defined tiers, fails with `UnknownTierError` for any other value, fail-closed
(§4.1). -/
def resolve (tier : String) : Except UnknownTierError RateLimitPolicy :=
  if tier = "starter" then .ok starterPolicy
  else if tier = "professional" then .ok professionalPolicy
  else if tier = "enterprise" then .ok enterprisePolicy
  else if tier = "enterprise_plus" then .ok enterprisePlusPolicy
  else .error (.unknownTier tier)

/-- Modelled from the spec: `TokenBucket` state —
`tokens_remaining` and `last_refill_at` (§3). -/
structure Bucket where
  tokens : ℚ
  lastRefillAt : ℚ
deriving DecidableEq, Repr

/-- Modelled from the spec: `ConsumeResult{allowed, tokens_remaining,
retry_after}` (§4.2). -/
structure ConsumeResult where
  allowed : Bool
  tokensRemaining : ℚ
  retryAfter : ℚ
deriving DecidableEq, Repr

/-- The continuous-refill token value: `min(max_tokens, tokens_remaining +
elapsed * refill_rate)` (§4.2). -/
def refilledTokens (lim : WindowLimit) (now : ℚ) (b : Bucket) : ℚ :=
  min lim.maxTokens (b.tokens + (now - b.lastRefillAt) * lim.refillRate)

/-- Modelled from the spec: `BucketStore.tryConsume` on a single bucket
(§4.2) — refill continuously; on sufficient tokens debit the cost and stamp
`last_refill_at = now`; on insufficient tokens report `retry_after =
(cost - tokens) / refill_rate` and leave the stored state untouched (the
partial refill is not persisted). -/
def tryConsume (lim : WindowLimit) (cost now : ℚ) (b : Bucket) :
    ConsumeResult × Bucket :=
  if cost ≤ refilledTokens lim now b then
    (⟨true, refilledTokens lim now b - cost, 0⟩,
     ⟨refilledTokens lim now b - cost, now⟩)
  else
    (⟨false, refilledTokens lim now b,
      (cost - refilledTokens lim now b) / lim.refillRate⟩, b)

/-- A bucket key: `(tenant_id, resource_class, window_kind)` (§3). -/
def BucketKey : Type := String × String × WindowKind

instance : DecidableEq BucketKey := by
  unfold BucketKey
  infer_instance

/-- A keyed bucket table; absent entries are buckets not yet lazily created. -/
def BucketMap : Type := BucketKey → Option Bucket

/-- Modelled from the spec: `BucketStore` with a distributed backend and a
local in-process fallback (§2, §4.2); `distributed = none` models the backend
being unreachable or timed out, in which case operations fall back to the
local table. -/
structure BucketStore where
  distributed : Option BucketMap
  localMap : BucketMap

/-- The table currently consulted: the distributed backend when reachable,
otherwise the local fallback (§4.2 failure mode). -/
def BucketStore.active (s : BucketStore) : BucketMap :=
  match s.distributed with
  | some m => m
  | none => s.localMap

/-- Write one bucket into whichever table is active. -/
def BucketStore.write (s : BucketStore) (k : BucketKey) (b : Bucket) :
    BucketStore :=
  match s.distributed with
  | some m => { s with distributed := some (fun j => if j = k then some b else m j) }
  | none => { s with localMap := fun j => if j = k then some b else s.localMap j }

/-- Modelled from the spec: lazy bucket creation — a bucket is created full on
first request (§3 TokenBucket). -/
def getOrCreate (m : BucketMap) (k : BucketKey) (lim : WindowLimit) (now : ℚ) :
    Bucket :=
  match m k with
  | some b => b
  | none => ⟨lim.maxTokens, now⟩

/-- The `tryConsume` outcome of one window of a request, read from the active
table of the store, the bucket being created full on first use. -/
def windowAttempt (p : RateLimitPolicy) (s : BucketStore)
    (tenant resource : String) (w : WindowKind) (cost now : ℚ) :
    ConsumeResult × Bucket :=
  tryConsume (p.limit w) cost now
    (getOrCreate s.active (tenant, resource, w) (p.limit w) now)

/-- Modelled from the spec: the all-or-nothing three-window consume of §4.2 —
every window of {minute, hour, day} is checked; tokens are consumed from all
three on success and from none on any single denial.  Returns
`((allowed, retry_after), store)` where `retry_after` is the largest
`retry_after` among denied windows (§4.4 step 4). -/
def consumeAll (p : RateLimitPolicy) (s : BucketStore)
    (tenant resource : String) (cost now : ℚ) : (Bool × ℚ) × BucketStore :=
  if (windowAttempt p s tenant resource .minute cost now).1.allowed ∧
      (windowAttempt p s tenant resource .hour cost now).1.allowed ∧
      (windowAttempt p s tenant resource .day cost now).1.allowed then
    ((true, 0),
      ((s.write (tenant, resource, .minute)
          (windowAttempt p s tenant resource .minute cost now).2).write
        (tenant, resource, .hour)
        (windowAttempt p s tenant resource .hour cost now).2).write
      (tenant, resource, .day)
      (windowAttempt p s tenant resource .day cost now).2)
  else
    ((false,
      max (if (windowAttempt p s tenant resource .minute cost now).1.allowed
        then 0 else (windowAttempt p s tenant resource .minute cost now).1.retryAfter)
        (max (if (windowAttempt p s tenant resource .hour cost now).1.allowed
          then 0 else (windowAttempt p s tenant resource .hour cost now).1.retryAfter)
          (if (windowAttempt p s tenant resource .day cost now).1.allowed
            then 0 else (windowAttempt p s tenant resource .day cost now).1.retryAfter))),
      s)

/-- Modelled from the spec: violation-tracker configuration — sliding-window
length (default 10 minutes), block threshold (default 20) and block duration
(default 1 hour) (§4.3, §6). -/
structure TrackerConfig where
  window : ℚ
  threshold : ℕ
  blockDuration : ℚ
deriving DecidableEq, Repr

/-- Modelled from the spec: the default tracker configuration of §4.3, in
seconds. -/
def defaultTrackerConfig : TrackerConfig :=
  { window := 600, threshold := 20, blockDuration := 3600 }

/-- Modelled from the spec: `ViolationTracker` state — a `ViolationRecord`
`(violation_count, window_started_at)` per `(tenant_id, source_ip)` and a
`BlockedIp` expiry per source IP (§3). -/
structure TrackerState where
  violations : String × String → Option (ℕ × ℚ)
  blocked : String → Option ℚ

/-- Modelled from the spec: `isBlocked(source_ip)` — a `BlockedIp` blocks
strictly before its `expires_at` and is lazily treated as expired from
`expires_at` on (§3, §8). -/
def isBlocked (s : TrackerState) (ip : String) (now : ℚ) : Bool :=
  match s.blocked ip with
  | some e => now < e
  | none => false

/-- Modelled from the spec: `recordDenial(tenant_id, source_ip)` (§4.3) —
increment the violation count inside the sliding window, resetting the window
once it has elapsed; when the count reaches the threshold (after exactly
`threshold` denials within the window, §8), create a `BlockedIp` with
`expires_at = now + block_duration` and return `blocked = true`. -/
def recordDenial (cfg : TrackerConfig) (s : TrackerState)
    (tenant ip : String) (now : ℚ) : Bool × TrackerState :=
  let rec' : ℕ × ℚ :=
    match s.violations (tenant, ip) with
    | some (c, w) => if cfg.window ≤ now - w then (1, now) else (c + 1, w)
    | none => (1, now)
  let violations' : String × String → Option (ℕ × ℚ) :=
    fun j => if j = (tenant, ip) then some rec' else s.violations j
  if cfg.threshold ≤ rec'.1 then
    (true,
      { violations := violations'
        blocked := fun j =>
          if j = ip then some (now + cfg.blockDuration) else s.blocked j })
  else
    (false, { s with violations := violations' })

/-- Modelled from the spec: the decision returned by
`AdmissionDecisionEngine.check` (§4.4). -/
inductive Decision where
  | allow
  | denyQuota (retryAfter : ℚ)
  | denyBlocked (expiresAt : ℚ)
deriving DecidableEq, Repr

/-- The full shared mutable state of the admission layer: bucket store plus
violation tracker (§3 ownership). -/
structure SystemState where
  store : BucketStore
  tracker : TrackerState

/-- Modelled from the spec: steps (2)–(5) of `AdmissionDecisionEngine.check`
(§4.4), the path taken once the source IP is known not to be blocked —
the policy is resolved (an unknown tier failing the whole request), all three
windows are consumed all-or-nothing, a denial is recorded with the violation
tracker (a freshly crossed threshold yielding `DENY_BLOCKED`, otherwise
`DENY_QUOTA` with the largest `retry_after`), and an all-window admit yields
`ADMIT`. -/
def checkUnblocked (cfg : TrackerConfig) (st : SystemState)
    (tenant tier ip resource : String) (cost now : ℚ) :
    Except UnknownTierError (Decision × SystemState) :=
  match resolve tier with
  | .error e => .error e
  | .ok policy =>
    if (consumeAll policy st.store tenant resource cost now).1.1 then
      .ok (.allow,
        { st with store := (consumeAll policy st.store tenant resource cost now).2 })
    else
      if (recordDenial cfg st.tracker tenant ip now).1 then
        .ok (.denyBlocked (now + cfg.blockDuration),
          { st with tracker := (recordDenial cfg st.tracker tenant ip now).2 })
      else
        .ok (.denyQuota (consumeAll policy st.store tenant resource cost now).1.2,
          { st with tracker := (recordDenial cfg st.tracker tenant ip now).2 })

/-- Modelled from the spec: `AdmissionDecisionEngine.check` (§4.4) — step (1):
a blocked source IP is denied before any bucket consumption is attempted;
otherwise the request proceeds to policy resolution and bucket consumption. -/
def check (cfg : TrackerConfig) (st : SystemState)
    (tenant tier ip resource : String) (cost now : ℚ) :
    Except UnknownTierError (Decision × SystemState) :=
  match st.tracker.blocked ip with
  | some e =>
    if now < e then .ok (.denyBlocked e, st)
    else checkUnblocked cfg st tenant tier ip resource cost now
  | none => checkUnblocked cfg st tenant tier ip resource cost now

/-- The empty bucket table: no bucket has been lazily created yet. -/
def emptyBuckets : BucketMap := fun _ => none

/-- A store whose distributed backend is reachable and empty. -/
def exampleStore : BucketStore :=
  { distributed := some emptyBuckets, localMap := emptyBuckets }

/-- A store whose distributed backend is unreachable; only the local fallback
table is available. -/
def downStore : BucketStore :=
  { distributed := none, localMap := emptyBuckets }

/-- A tracker holding no violation records and no blocked IPs. -/
def freshTracker : TrackerState :=
  { violations := fun _ => none, blocked := fun _ => none }

/-- A tracker in which the IP `10.0.0.1` is blocked until clock reading 100. -/
def blockedTracker : TrackerState :=
  { violations := fun _ => none
    blocked := fun j => if j = "10.0.0.1" then some 100 else none }

/-- A fresh system state over a reachable backend. -/
def freshState : SystemState :=
  { store := exampleStore, tracker := freshTracker }

/-- A system state in which the IP `10.0.0.1` is blocked until clock
reading 100. -/
def blockedState : SystemState :=
  { store := exampleStore, tracker := blockedTracker }

/-- A fresh system state over an unreachable backend. -/
def downState : SystemState :=
  { store := downStore, tracker := freshTracker }

/-- Run a sequence of `tryConsume` calls `(now, cost)` against one bucket,
keeping the persisted state of each step. -/
def runCalls (lim : WindowLimit) (calls : List (ℚ × ℚ)) (b : Bucket) : Bucket :=
  calls.foldl (fun s c => (tryConsume lim c.2 c.1 s).2) b

/-- Run a sequence of `recordDenial` calls at the given times for one
`(tenant, ip)` pair; the first component is the `blocked` flag returned by the
last call (`false` for the empty sequence). -/
def runDenials (cfg : TrackerConfig) (tenant ip : String)
    (s : TrackerState) (ts : List ℚ) : Bool × TrackerState :=
  ts.foldl (fun a t => recordDenial cfg a.2 tenant ip t) (false, s)

/-- Run `n` sequential cost-`cost` `tryConsume` calls at one instant against a
single bucket, counting how many were allowed. -/
def consumeN (lim : WindowLimit) (cost now : ℚ) : ℕ → Bucket → ℕ × Bucket
  | 0, b => (0, b)
  | n + 1, b =>
    let (r, b') := tryConsume lim cost now b
    let (k, b'') := consumeN lim cost now n b'
    ((if r.allowed then 1 else 0) + k, b'')

end AdmissionControl

namespace Frontend

/-- A vulnerability record of `SmartContractAnalyzer.tsx` (interface
`Vulnerability`); the TypeScript string-literal union for `severity` is kept
as a string. -/
structure Vulnerability where
  vulnType : String
  severity : String
  description : String
  confidence : ℚ
deriving DecidableEq, Repr

/-- An analysis record of `SmartContractAnalyzer.tsx` (interface
`AnalysisResult`); the ISO timestamp string is abstracted to the
`Date.now()` clock reading it is derived from. -/
structure AnalysisResult where
  id : String
  vulnerabilities : List Vulnerability
  riskScore : ℚ
  recommendations : List String
  timestamp : ℕ
deriving DecidableEq, Repr

/-- The `handleAnalyze` handler of `SmartContractAnalyzer.tsx`: returns
without a result
when both the contract code and the contract address are empty, and otherwise
produces the hard-coded mock result whose `id` and `timestamp` derive from the
current clock reading `now`. -/
def handleAnalyze (contractCode contractAddress : String) (now : ℕ) :
    Option AnalysisResult :=
  if contractCode = "" ∧ contractAddress = "" then none
  else
    some
      { id := "analysis_" ++ toString now
        vulnerabilities :=
          [ { vulnType := "reentrancy"
              severity := "high"
              description :=
                "Potential reentrancy vulnerability detected in transfer function"
              confidence := 0.85 }
          , { vulnType := "integer_overflow"
              severity := "medium"
              description :=
                "Unchecked arithmetic operations may lead to overflow"
              confidence := 0.72 } ]
        riskScore := 0.65
        recommendations :=
          [ "Implement checks-effects-interactions pattern"
          , "Use SafeMath library for arithmetic operations"
          , "Add reentrancy guards to sensitive functions" ]
        timestamp := now }

/-- A threat record of `ThreatIntelligence.tsx` (interface `Threat`); the ISO
timestamp string is abstracted to the millisecond clock reading it is derived
from. -/
structure Threat where
  id : String
  threatType : String
  severity : String
  description : String
  timestamp : ℕ
  source : String
  indicators : List String
deriving DecidableEq, Repr

/-- The three mock threats installed by the initial load of
`ThreatIntelligence.tsx`, at clock reading `now` (milliseconds). -/
def mockThreats (now : ℕ) : List Threat :=
  [ { id := "1"
      threatType := "Flash Loan Attack"
      severity := "critical"
      description :=
        "Suspicious flash loan activity detected targeting DeFi protocols"
      timestamp := now - 300000
      source := "AI Detection Engine"
      indicators := ["Large flash loan", "Price manipulation", "Arbitrage exploit"] }
  , { id := "2"
      threatType := "Reentrancy Pattern"
      severity := "high"
      description :=
        "Potential reentrancy attack pattern identified in smart contract"
      timestamp := now - 600000
      source := "Static Analysis"
      indicators := ["External call", "State change after call", "No reentrancy guard"] }
  , { id := "3"
      threatType := "Phishing Campaign"
      severity := "medium"
      description := "New phishing campaign targeting Web3 wallet users"
      timestamp := now - 900000
      source := "Community Reports"
      indicators := ["Fake website", "Social engineering", "Wallet connection"] } ]

/-- One firing of the 10-second interval handler of `ThreatIntelligence.tsx`:
with probability 0.3 (modelled by the boolean `fire`, the outcome of
`Math.random() > 0.7`) a new threat is prepended to the first nine existing
entries (`[newThreat, ...prev.slice(0, 9)]`); otherwise the list is left
unchanged. -/
def updateTick (fire : Bool) (t : Threat) (threats : List Threat) :
    List Threat :=
  if fire then t :: threats.take 9 else threats

/-- A run of the live-update interval: fold the tick handler over a sequence
of (firing outcome, generated threat) pairs. -/
def runTicks (ticks : List (Bool × Threat)) (threats : List Threat) :
    List Threat :=
  ticks.foldl (fun l p => updateTick p.1 p.2 l) threats

end Frontend

section Theorems

open AdmissionControl Frontend

/-- C1: a `tryConsume` call on a bucket `(tokens_remaining, last_refill_at)`
at time `now` computes `tokens = min(max_tokens, tokens_remaining +
(now - last_refill_at) * refill_rate)`; if `tokens ≥ cost` it returns
`allowed = true` and persists the state `(tokens - cost, now)`; otherwise it
returns `allowed = false` with `retry_after = (cost - tokens) / refill_rate`
and the refilled tokens value is not persisted. -/
theorem tryConsume_contract_c1 (lim : WindowLimit) (cost now : ℚ) (b : Bucket) :
    (cost ≤ refilledTokens lim now b →
      tryConsume lim cost now b =
        (⟨true, refilledTokens lim now b - cost, 0⟩,
         ⟨refilledTokens lim now b - cost, now⟩)) ∧
    (refilledTokens lim now b < cost →
      tryConsume lim cost now b =
        (⟨false, refilledTokens lim now b,
          (cost - refilledTokens lim now b) / lim.refillRate⟩, b)) := by
  constructor
  · intro h
    simp [tryConsume, h]
  · intro h
    simp [tryConsume, not_le.mpr h]

/-- Witness for C1: a permitted and a denied `tryConsume` call at concrete
inputs. -/
theorem tryConsume_contract_c1_witness :
    ((1 : ℚ) ≤ refilledTokens ⟨10, 1⟩ 5 ⟨3, 5⟩ ∧
      tryConsume ⟨10, 1⟩ 1 5 ⟨3, 5⟩ =
        (⟨true, refilledTokens ⟨10, 1⟩ 5 ⟨3, 5⟩ - 1, 0⟩,
         ⟨refilledTokens ⟨10, 1⟩ 5 ⟨3, 5⟩ - 1, 5⟩)) ∧
    (refilledTokens ⟨10, 1⟩ 5 ⟨0, 5⟩ < 1 ∧
      tryConsume ⟨10, 1⟩ 1 5 ⟨0, 5⟩ =
        (⟨false, refilledTokens ⟨10, 1⟩ 5 ⟨0, 5⟩,
          (1 - refilledTokens ⟨10, 1⟩ 5 ⟨0, 5⟩) / (⟨10, 1⟩ : WindowLimit).refillRate⟩,
         ⟨0, 5⟩)) := by
  have h1 : (1 : ℚ) ≤ refilledTokens ⟨10, 1⟩ 5 ⟨3, 5⟩ := by
    simp +decide [refilledTokens, sub_self, zero_mul, add_zero, le_min_iff]
  have h2 : refilledTokens ⟨10, 1⟩ 5 ⟨0, 5⟩ < 1 := by
    simp +decide [refilledTokens, sub_self, zero_mul, add_zero, min_lt_iff]
  exact ⟨⟨h1, (tryConsume_contract_c1 ⟨10, 1⟩ 1 5 ⟨3, 5⟩).1 h1⟩,
         ⟨h2, (tryConsume_contract_c1 ⟨10, 1⟩ 1 5 ⟨0, 5⟩).2 h2⟩⟩

/-- C9: the smart-contract analysis result is independent of its input — for
every input with a non-empty contract code and/or contract address,
`handleAnalyze` produces the same fixed record (risk score 0.65, the two fixed
vulnerabilities, the three fixed recommendations), only the `id` and
`timestamp` fields varying with the clock. -/
theorem handleAnalyze_input_independent_c9
    (code addr code' addr' : String) (now now' : ℕ)
    (h : ¬(code = "" ∧ addr = "")) (h' : ¬(code' = "" ∧ addr' = "")) :
    ∃ r r', handleAnalyze code addr now = some r ∧
      handleAnalyze code' addr' now' = some r' ∧
      r.vulnerabilities = r'.vulnerabilities ∧
      r.riskScore = r'.riskScore ∧
      r.recommendations = r'.recommendations ∧
      r.riskScore = 0.65 ∧
      r.vulnerabilities =
        [⟨"reentrancy", "high",
          "Potential reentrancy vulnerability detected in transfer function",
          0.85⟩,
         ⟨"integer_overflow", "medium",
          "Unchecked arithmetic operations may lead to overflow", 0.72⟩] ∧
      r.recommendations =
        ["Implement checks-effects-interactions pattern",
         "Use SafeMath library for arithmetic operations",
         "Add reentrancy guards to sensitive functions"] ∧
      r.id = "analysis_" ++ toString now ∧ r.timestamp = now := by
  unfold handleAnalyze
  rw [if_neg h, if_neg h']
  exact ⟨_, _, rfl, rfl, rfl, rfl, rfl, rfl, rfl, rfl, rfl, rfl⟩

/-- Witness for C9: two concrete analyses (one by code, one by address) share
the fixed analysis content. -/
theorem handleAnalyze_input_independent_c9_witness :
    ¬("pragma solidity" = "" ∧ "" = "") ∧ ¬("" = "" ∧ "0xabc" = "") ∧
    (∃ r r', handleAnalyze "pragma solidity" "" 7 = some r ∧
      handleAnalyze "" "0xabc" 8 = some r' ∧
      r.vulnerabilities = r'.vulnerabilities ∧
      r.riskScore = r'.riskScore ∧
      r.recommendations = r'.recommendations ∧
      r.riskScore = 0.65 ∧
      r.vulnerabilities =
        [⟨"reentrancy", "high",
          "Potential reentrancy vulnerability detected in transfer function",
          0.85⟩,
         ⟨"integer_overflow", "medium",
          "Unchecked arithmetic operations may lead to overflow", 0.72⟩] ∧
      r.recommendations =
        ["Implement checks-effects-interactions pattern",
         "Use SafeMath library for arithmetic operations",
         "Add reentrancy guards to sensitive functions"] ∧
      r.id = "analysis_" ++ toString 7 ∧ r.timestamp = 7) :=
  ⟨by decide, by decide,
   handleAnalyze_input_independent_c9 "pragma solidity" "" "" "0xabc" 7 8
     (by decide) (by decide)⟩

/-- C10: every firing of the threat-feed live-update handler either leaves the
threat list unchanged or prepends one new threat to at most the first nine
existing entries; the handler preserves the bound `length ≤ 10`, and after the
initial load the displayed list never exceeds ten items. -/
theorem threat_list_bounded_c10 :
    (∀ (fire : Bool) (t : Threat) (l : List Threat),
      updateTick fire t l = l ∨ updateTick fire t l = t :: l.take 9) ∧
    (∀ (fire : Bool) (t : Threat) (l : List Threat),
      l.length ≤ 10 → (updateTick fire t l).length ≤ 10) ∧
    (∀ (now : ℕ) (ticks : List (Bool × Threat)),
      (runTicks ticks (mockThreats now)).length ≤ 10) := by
  have hstep : ∀ (fire : Bool) (t : Threat) (l : List Threat),
      l.length ≤ 10 → (updateTick fire t l).length ≤ 10 := by
    intro fire t l h
    cases fire
    · simpa [updateTick] using h
    · simp only [updateTick, if_pos, List.length_cons, List.length_take]
      omega
  refine ⟨?_, hstep, ?_⟩
  · intro fire t l
    cases fire
    · exact Or.inl (by simp [updateTick])
    · exact Or.inr (by simp [updateTick])
  · intro now ticks
    have key : ∀ (ts : List (Bool × Threat)) (l : List Threat),
        l.length ≤ 10 → (runTicks ts l).length ≤ 10 := by
      intro ts
      induction ts with
      | nil => intro l h; simpa [runTicks] using h
      | cons p ps ih =>
        intro l h
        have h' := hstep p.1 p.2 l h
        simpa [runTicks, List.foldl_cons] using ih _ h'
    exact key ticks _ (by simp [mockThreats])

/-- Witness for C10: a concrete firing on a full ten-element list keeps the
list at ten entries, and a concrete interval run stays within the bound. -/
theorem threat_list_bounded_c10_witness :
    (List.replicate 10 (⟨"x", "t", "low", "d", 0, "s", []⟩ : Threat)).length ≤ 10 ∧
    (updateTick true ⟨"y", "u", "high", "e", 1, "s", []⟩
      (List.replicate 10 ⟨"x", "t", "low", "d", 0, "s", []⟩)).length ≤ 10 ∧
    (runTicks [(true, ⟨"y", "u", "high", "e", 1, "s", []⟩), (false, ⟨"z", "v", "low", "f", 2, "s", []⟩)]
      (mockThreats 1000000)).length ≤ 10 :=
  ⟨by decide,
   (threat_list_bounded_c10).2.1 true ⟨"y", "u", "high", "e", 1, "s", []⟩
     (List.replicate 10 ⟨"x", "t", "low", "d", 0, "s", []⟩) (by decide),
   (threat_list_bounded_c10).2.2 1000000
     [(true, ⟨"y", "u", "high", "e", 1, "s", []⟩), (false, ⟨"z", "v", "low", "f", 2, "s", []⟩)]⟩

/-- One `tryConsume` call keeps a bucket's token balance inside
`[0, max_tokens]` as long as it started there and the cost is nonnegative. -/
lemma tryConsume_snd_bounds (lim : WindowLimit) (cost now : ℚ) (b : Bucket)
    (hb0 : 0 ≤ b.tokens) (hb1 : b.tokens ≤ lim.maxTokens) (hc : 0 ≤ cost) :
    0 ≤ (tryConsume lim cost now b).2.tokens ∧
      (tryConsume lim cost now b).2.tokens ≤ lim.maxTokens := by
  by_cases h : cost ≤ refilledTokens lim now b
  · simp only [tryConsume, if_pos h]
    constructor
    · linarith
    · have := min_le_left lim.maxTokens
        (b.tokens + (now - b.lastRefillAt) * lim.refillRate)
      simp only [refilledTokens] at *
      linarith
  · simp only [tryConsume, if_neg h]
    exact ⟨hb0, hb1⟩

/-- C2: for every tier and window, a finite sequence of `tryConsume` calls of
nonnegative cost started from a bucket state inside `[0, max_tokens]` (as
every reachable state is, buckets being created full) leaves the balance
inside `[0, max_tokens]`; since every prefix of such a sequence is such a
sequence, the bound holds after every call. -/
theorem tokens_bounded_c2 (tier : String) (p : RateLimitPolicy) (w : WindowKind)
    (_hp : resolve tier = .ok p) (calls : List (ℚ × ℚ)) (b : Bucket)
    (hb0 : 0 ≤ b.tokens) (hb1 : b.tokens ≤ (p.limit w).maxTokens)
    (hc : ∀ c ∈ calls, 0 ≤ c.2) :
    0 ≤ (runCalls (p.limit w) calls b).tokens ∧
      (runCalls (p.limit w) calls b).tokens ≤ (p.limit w).maxTokens := by
  induction calls generalizing b with
  | nil => exact ⟨hb0, hb1⟩
  | cons c cs ih =>
    have hstep := tryConsume_snd_bounds (p.limit w) c.2 c.1 b hb0 hb1
      (hc c (List.mem_cons_self c cs))
    have hrest : ∀ d ∈ cs, 0 ≤ d.2 := fun d hd => hc d (List.mem_cons_of_mem c hd)
    simpa [runCalls, List.foldl_cons] using
      ih ((tryConsume (p.limit w) c.2 c.1 b).2) hstep.1 hstep.2 hrest

/-- Witness for C2: two concrete calls against a starter-tier minute bucket
stay inside the bound. -/
theorem tokens_bounded_c2_witness :
    resolve "starter" = .ok starterPolicy ∧
    (0 : ℚ) ≤ (⟨50, 0⟩ : Bucket).tokens ∧
    (⟨50, 0⟩ : Bucket).tokens ≤ (starterPolicy.limit .minute).maxTokens ∧
    (∀ c ∈ [((0 : ℚ), (1 : ℚ)), (0, 2)], 0 ≤ c.2) ∧
    (0 ≤ (runCalls (starterPolicy.limit .minute) [(0, 1), (0, 2)] ⟨50, 0⟩).tokens ∧
      (runCalls (starterPolicy.limit .minute) [(0, 1), (0, 2)] ⟨50, 0⟩).tokens ≤
        (starterPolicy.limit .minute).maxTokens) :=
  ⟨rfl, by decide, by decide, by decide,
   tokens_bounded_c2 "starter" starterPolicy .minute rfl [(0, 1), (0, 2)] ⟨50, 0⟩
     (by decide) (by decide) (by decide)⟩

/-- C8: `N` serialized cost-1 `tryConsume` calls at one instant against a
single bucket holding `C` tokens (with `C` within the bucket's capacity)
admit exactly `min(N, C)` of the callers and deny the remaining
`N - min(N, C)`; the final balance `C - min(N, C)` is never negative, so the
store's per-key serialization can never over-admit. -/
theorem concurrent_min_admits_c8 (M r now : ℚ) (C N : ℕ) (hM : (C : ℚ) ≤ M) :
    consumeN ⟨M, r⟩ 1 now N ⟨(C : ℚ), now⟩ =
      (min N C, ⟨((C - min N C : ℕ) : ℚ), now⟩) ∧
    0 ≤ ((C - min N C : ℕ) : ℚ) := by
  refine ⟨?_, by positivity⟩
  induction N generalizing C with
  | zero => simp [consumeN]
  | succ n ih =>
    have href : refilledTokens ⟨M, r⟩ now ⟨(C : ℚ), now⟩ = (C : ℚ) := by
      have : ((C : ℚ), now) = ((C : ℚ), now) := rfl
      simpa [refilledTokens, sub_self, zero_mul, add_zero] using min_eq_right hM
    cases C with
    | zero =>
      have hdeny : ¬ (1 : ℚ) ≤ refilledTokens ⟨M, r⟩ now ⟨((0 : ℕ) : ℚ), now⟩ := by
        rw [href]
        norm_num
      have h0 := ih (C := 0) (by simpa using hM)
      simp only [consumeN, tryConsume, if_neg hdeny]
      simpa using h0
    | succ c =>
      have hallow : (1 : ℚ) ≤ refilledTokens ⟨M, r⟩ now ⟨((c + 1 : ℕ) : ℚ), now⟩ := by
        rw [href]
        exact_mod_cast Nat.one_le_iff_ne_zero.mpr (Nat.succ_ne_zero c)
      have hcast : refilledTokens ⟨M, r⟩ now ⟨((c + 1 : ℕ) : ℚ), now⟩ - 1 = ((c : ℕ) : ℚ) := by
        rw [href]
        push_cast
        ring
      have hM' : ((c : ℕ) : ℚ) ≤ M := le_trans (by exact_mod_cast Nat.le_succ c) hM
      have hrec := ih (C := c) hM'
      simp only [consumeN, tryConsume, if_pos hallow, hcast, hrec, if_true]
      refine Prod.ext ?_ ?_
      · simp only []
        omega
      · simp only [Bucket.mk.injEq]
        refine ⟨?_, trivial⟩
        have : c - n ⊓ c = c + 1 - (n + 1) ⊓ (c + 1) := by omega
        rw [this]

/-- Witness for C8: seven concurrent unit consumptions against a bucket of
three tokens admit exactly three. -/
theorem concurrent_min_admits_c8_witness :
    ((3 : ℕ) : ℚ) ≤ 5 ∧
    consumeN ⟨5, 1⟩ 1 0 7 ⟨((3 : ℕ) : ℚ), 0⟩ =
      (min 7 3, ⟨((3 - min 7 3 : ℕ) : ℚ), 0⟩) ∧
    0 ≤ ((3 - min 7 3 : ℕ) : ℚ) :=
  ⟨by simp +decide,
   (concurrent_min_admits_c8 5 1 0 3 7 (by simp +decide)).1,
   (concurrent_min_admits_c8 5 1 0 3 7 (by simp +decide)).2⟩

/-- C4: `resolve` returns a policy for each of the four defined tiers and
fails with `UnknownTierError` for every other tier value; an unknown tier is
never mapped to any policy, and the failure propagates through `check`, so the
request is rejected rather than admitted under a default policy. -/
theorem resolve_fail_closed_c4 :
    resolve "starter" = .ok starterPolicy ∧
    resolve "professional" = .ok professionalPolicy ∧
    resolve "enterprise" = .ok enterprisePolicy ∧
    resolve "enterprise_plus" = .ok enterprisePlusPolicy ∧
    (∀ t, t ≠ "starter" → t ≠ "professional" → t ≠ "enterprise" →
      t ≠ "enterprise_plus" →
      resolve t = .error (.unknownTier t) ∧
      (∀ p, resolve t ≠ .ok p) ∧
      (∀ (cfg : TrackerConfig) (st : SystemState) (tenant ip resource : String)
        (cost now : ℚ), st.tracker.blocked ip = none →
        check cfg st tenant t ip resource cost now =
          .error (.unknownTier t))) := by
  refine ⟨rfl, rfl, rfl, rfl, ?_⟩
  intro t h1 h2 h3 h4
  have hres : resolve t = .error (.unknownTier t) := by
    simp [resolve, h1, h2, h3, h4]
  refine ⟨hres, ?_, ?_⟩
  · intro p hp
    rw [hres] at hp
    exact Except.noConfusion hp
  · intro cfg st tenant ip resource cost now hb
    simp [check, hb, checkUnblocked, hres]

/-- Witness for C4: the undefined tier `gold` is rejected with
`UnknownTierError`, also through a full `check` call. -/
theorem resolve_fail_closed_c4_witness :
    ("gold" ≠ "starter") ∧ ("gold" ≠ "professional") ∧
    ("gold" ≠ "enterprise") ∧ ("gold" ≠ "enterprise_plus") ∧
    freshState.tracker.blocked "10.0.0.1" = none ∧
    resolve "gold" = .error (.unknownTier "gold") ∧
    (∀ p, resolve "gold" ≠ .ok p) ∧
    check defaultTrackerConfig freshState "t" "gold" "10.0.0.1" "api" 1 0 =
      .error (.unknownTier "gold") := by
  have h := resolve_fail_closed_c4.2.2.2.2 "gold" (by decide) (by decide)
    (by decide) (by decide)
  exact ⟨by decide, by decide, by decide, by decide, rfl, h.1, h.2.1,
    h.2.2 defaultTrackerConfig freshState "t" "10.0.0.1" "api" 1 0 rfl⟩

/-- C6: a `check` call made while the source IP is blocked returns
`DENY_BLOCKED` with the stored expiry and leaves the entire system state —
in particular every token bucket — untouched: no `tryConsume` is performed
for such a request. -/
theorem blocked_ip_short_circuit_c6 (cfg : TrackerConfig) (st : SystemState)
    (tenant tier ip resource : String) (cost now : ℚ)
    (h : isBlocked st.tracker ip now = true) :
    ∃ e, st.tracker.blocked ip = some e ∧ now < e ∧
      check cfg st tenant tier ip resource cost now =
        .ok (.denyBlocked e, st) := by
  unfold isBlocked at h
  cases heq : st.tracker.blocked ip with
  | none =>
    rw [heq] at h
    simp at h
  | some e =>
    rw [heq] at h
    have hlt : now < e := by simpa using h
    exact ⟨e, rfl, hlt, by simp [check, heq, hlt]⟩

/-- Witness for C6: a concrete blocked IP is denied without any state
change. -/
theorem blocked_ip_short_circuit_c6_witness :
    isBlocked blockedState.tracker "10.0.0.1" 0 = true ∧
    ∃ e, blockedState.tracker.blocked "10.0.0.1" = some e ∧ (0 : ℚ) < e ∧
      check defaultTrackerConfig blockedState "t" "starter" "10.0.0.1" "api" 1 0 =
        .ok (.denyBlocked e, blockedState) :=
  ⟨rfl, blocked_ip_short_circuit_c6 defaultTrackerConfig blockedState
    "t" "starter" "10.0.0.1" "api" 1 0 rfl⟩

/-- Writing a bucket never resurrects an unreachable distributed backend. -/
lemma write_distributed_none (s : BucketStore) (k : BucketKey) (b : Bucket)
    (h : s.distributed = none) : (s.write k b).distributed = none := by
  simp [BucketStore.write, h]

/-- With the distributed backend unreachable, the three-window consume only
touches the local fallback table. -/
lemma consumeAll_distributed_none (p : RateLimitPolicy) (s : BucketStore)
    (tenant resource : String) (cost now : ℚ) (h : s.distributed = none) :
    (consumeAll p s tenant resource cost now).2.distributed = none := by
  unfold consumeAll
  split
  · exact write_distributed_none _ _ _
      (write_distributed_none _ _ _ (write_distributed_none _ _ _ h))
  · exact h

/-- The unblocked path of `check` always resolves to a decision once the tier
is known, staying on the local fallback when the backend is unreachable. -/
lemma checkUnblocked_fallback (cfg : TrackerConfig) (st : SystemState)
    (tenant tier ip resource : String) (cost now : ℚ) (p : RateLimitPolicy)
    (hdown : st.store.distributed = none) (hp : resolve tier = .ok p) :
    ∃ d st', checkUnblocked cfg st tenant tier ip resource cost now =
      .ok (d, st') ∧ st'.store.distributed = none := by
  unfold checkUnblocked
  rw [hp]
  dsimp only
  by_cases hall : (consumeAll p st.store tenant resource cost now).1.1 = true
  · exact ⟨.allow, _, by rw [if_pos hall],
      consumeAll_distributed_none p st.store tenant resource cost now hdown⟩
  · rw [if_neg hall]
    by_cases hb : (recordDenial cfg st.tracker tenant ip now).1 = true
    · exact ⟨.denyBlocked (now + cfg.blockDuration),
        ⟨st.store, (recordDenial cfg st.tracker tenant ip now).2⟩,
        by rw [if_pos hb], hdown⟩
    · exact ⟨.denyQuota (consumeAll p st.store tenant resource cost now).1.2,
        ⟨st.store, (recordDenial cfg st.tracker tenant ip now).2⟩,
        by rw [if_neg hb], hdown⟩

/-- C7: with the distributed backend unreachable, every `check` call for a
known tier still resolves to an admit/deny decision via the local fallback
store — a backend outage is never surfaced to the caller, the unknown-tier
configuration error being the only per-request failure `check` can return. -/
theorem fallback_resolves_c7 (cfg : TrackerConfig) (st : SystemState)
    (tenant tier ip resource : String) (cost now : ℚ) (p : RateLimitPolicy)
    (hdown : st.store.distributed = none) (hp : resolve tier = .ok p) :
    ∃ d st', check cfg st tenant tier ip resource cost now = .ok (d, st') ∧
      st'.store.distributed = none := by
  unfold check
  cases heq : st.tracker.blocked ip with
  | none =>
    exact checkUnblocked_fallback cfg st tenant tier ip resource cost now p hdown hp
  | some e =>
    dsimp only
    by_cases hlt : now < e
    · exact ⟨.denyBlocked e, st, by rw [if_pos hlt], hdown⟩
    · rw [if_neg hlt]
      exact checkUnblocked_fallback cfg st tenant tier ip resource cost now p hdown hp

/-- Witness for C7: a concrete `check` call against an unreachable backend
still returns a decision. -/
theorem fallback_resolves_c7_witness :
    downState.store.distributed = none ∧
    resolve "starter" = .ok starterPolicy ∧
    ∃ d st', check defaultTrackerConfig downState "t" "starter" "10.0.0.1" "api" 1 0 =
      .ok (d, st') ∧ st'.store.distributed = none :=
  ⟨rfl, rfl, fallback_resolves_c7 defaultTrackerConfig downState
    "t" "starter" "10.0.0.1" "api" 1 0 starterPolicy rfl rfl⟩

/-- The active table after a write is the point update of the active table. -/
lemma active_write (s : BucketStore) (k : BucketKey) (b : Bucket) :
    (s.write k b).active = fun j => if j = k then some b else s.active j := by
  cases s with
  | mk dist lm => cases dist <;> rfl

/-- An allowed `tryConsume` consumed the cost from the refilled balance and
stamped the refill time. -/
lemma tryConsume_allowed_snd (lim : WindowLimit) (cost now : ℚ) (b : Bucket)
    (h : (tryConsume lim cost now b).1.allowed = true) :
    cost ≤ refilledTokens lim now b ∧
      (tryConsume lim cost now b).2 = ⟨refilledTokens lim now b - cost, now⟩ := by
  by_cases hc : cost ≤ refilledTokens lim now b
  · exact ⟨hc, by simp [tryConsume, hc]⟩
  · exfalso
    simp [tryConsume, hc] at h

/-- An allowed window attempt consumed the cost from the refilled balance of
the lazily created bucket. -/
lemma windowAttempt_allowed_snd (p : RateLimitPolicy) (s : BucketStore)
    (tenant resource : String) (w : WindowKind) (cost now : ℚ)
    (h : (windowAttempt p s tenant resource w cost now).1.allowed = true) :
    cost ≤ refilledTokens (p.limit w) now
        (getOrCreate s.active (tenant, resource, w) (p.limit w) now) ∧
      (windowAttempt p s tenant resource w cost now).2 =
        ⟨refilledTokens (p.limit w) now
          (getOrCreate s.active (tenant, resource, w) (p.limit w) now) - cost,
         now⟩ := by
  unfold windowAttempt at h ⊢
  exact tryConsume_allowed_snd _ _ _ _ h

/-- The all-or-nothing property of the unblocked path: an admitted request
debited exactly the cost from all three freshly refilled windows, a denied
request left the bucket store untouched, and a quota denial means some window
denied. -/
lemma checkUnblocked_all_or_nothing (cfg : TrackerConfig) (st : SystemState)
    (tenant tier ip resource : String) (cost now : ℚ) (d : Decision)
    (st' : SystemState)
    (h : checkUnblocked cfg st tenant tier ip resource cost now = .ok (d, st')) :
    (d ≠ Decision.allow → st'.store = st.store) ∧
    (d = Decision.allow → ∀ q, resolve tier = Except.ok q → ∀ w : WindowKind,
      (windowAttempt q st.store tenant resource w cost now).1.allowed = true ∧
      st'.store.active (tenant, resource, w) =
        some ⟨refilledTokens (q.limit w) now
          (getOrCreate st.store.active (tenant, resource, w) (q.limit w) now) - cost,
          now⟩) ∧
    (∀ rA, d = Decision.denyQuota rA → ∃ q, resolve tier = Except.ok q ∧
      ¬((windowAttempt q st.store tenant resource WindowKind.minute cost now).1.allowed = true ∧
        (windowAttempt q st.store tenant resource WindowKind.hour cost now).1.allowed = true ∧
        (windowAttempt q st.store tenant resource WindowKind.day cost now).1.allowed = true)) := by
  unfold checkUnblocked at h
  cases hres : resolve tier with
  | error e =>
    rw [hres] at h
    exact absurd h (by simp)
  | ok p =>
    rw [hres] at h
    dsimp only at h
    by_cases hall : (consumeAll p st.store tenant resource cost now).1.1 = true
    · rw [if_pos hall] at h
      rw [Except.ok.injEq, Prod.mk.injEq] at h
      obtain ⟨hd, hst⟩ := h
      subst hd
      subst hst
      have hcond :
          (windowAttempt p st.store tenant resource WindowKind.minute cost now).1.allowed = true ∧
          (windowAttempt p st.store tenant resource WindowKind.hour cost now).1.allowed = true ∧
          (windowAttempt p st.store tenant resource WindowKind.day cost now).1.allowed = true := by
        by_contra hc
        unfold consumeAll at hall
        rw [if_neg hc] at hall
        exact absurd hall (by simp)
      have hstore : (consumeAll p st.store tenant resource cost now).2 =
          ((st.store.write (tenant, resource, WindowKind.minute)
              (windowAttempt p st.store tenant resource WindowKind.minute cost now).2).write
            (tenant, resource, WindowKind.hour)
            (windowAttempt p st.store tenant resource WindowKind.hour cost now).2).write
          (tenant, resource, WindowKind.day)
          (windowAttempt p st.store tenant resource WindowKind.day cost now).2 := by
        unfold consumeAll
        rw [if_pos hcond]
      refine ⟨fun hne => absurd rfl hne, ?_, fun rA habs => absurd habs (by simp)⟩
      intro _ q hq w
      rw [Except.ok.injEq] at hq
      subst hq
      obtain ⟨hm, hh, hd2⟩ := hcond
      cases w with
      | minute =>
        refine ⟨hm, ?_⟩
        show ((consumeAll p st.store tenant resource cost now).2).active
          (tenant, resource, WindowKind.minute) = _
        rw [hstore]
        simp only [active_write]
        have ne1 : ((tenant, resource, WindowKind.minute) : BucketKey) ≠
            (tenant, resource, WindowKind.day) := by simp
        have ne2 : ((tenant, resource, WindowKind.minute) : BucketKey) ≠
            (tenant, resource, WindowKind.hour) := by simp
        rw [if_neg ne1, if_neg ne2]
        simp only [eq_self_iff_true, if_true]
        exact congrArg some
          (windowAttempt_allowed_snd p st.store tenant resource WindowKind.minute cost now hm).2
      | hour =>
        refine ⟨hh, ?_⟩
        show ((consumeAll p st.store tenant resource cost now).2).active
          (tenant, resource, WindowKind.hour) = _
        rw [hstore]
        simp only [active_write]
        have ne1 : ((tenant, resource, WindowKind.hour) : BucketKey) ≠
            (tenant, resource, WindowKind.day) := by simp
        rw [if_neg ne1]
        simp only [eq_self_iff_true, if_true]
        exact congrArg some
          (windowAttempt_allowed_snd p st.store tenant resource WindowKind.hour cost now hh).2
      | day =>
        refine ⟨hd2, ?_⟩
        show ((consumeAll p st.store tenant resource cost now).2).active
          (tenant, resource, WindowKind.day) = _
        rw [hstore]
        simp only [active_write]
        simp only [eq_self_iff_true, if_true]
        exact congrArg some
          (windowAttempt_allowed_snd p st.store tenant resource WindowKind.day cost now hd2).2
    · rw [if_neg hall] at h
      by_cases hb : (recordDenial cfg st.tracker tenant ip now).1 = true
      · rw [if_pos hb, Except.ok.injEq, Prod.mk.injEq] at h
        obtain ⟨hd, hst⟩ := h
        subst hd
        subst hst
        exact ⟨fun _ => rfl, fun habs => absurd habs (by simp),
          fun rA habs => absurd habs (by simp)⟩
      · rw [if_neg hb, Except.ok.injEq, Prod.mk.injEq] at h
        obtain ⟨hd, hst⟩ := h
        subst hd
        subst hst
        refine ⟨fun _ => rfl, fun habs => absurd habs (by simp), ?_⟩
        intro rA _
        refine ⟨p, rfl, fun hc => ?_⟩
        unfold consumeAll at hall
        rw [if_pos hc] at hall
        exact absurd rfl hall

/-- C3: every admission request is all-or-nothing across the three windows —
an admitted request found all three windows allowing and debited exactly the
cost from each of the three refilled buckets, while any denial (quota or
block) leaves the token state of all three buckets unchanged; a quota denial
means at least one window denied. -/
theorem all_or_nothing_c3 (cfg : TrackerConfig) (st : SystemState)
    (tenant tier ip resource : String) (cost now : ℚ) (d : Decision)
    (st' : SystemState)
    (h : check cfg st tenant tier ip resource cost now = .ok (d, st')) :
    (d ≠ Decision.allow → st'.store = st.store) ∧
    (d = Decision.allow → ∀ q, resolve tier = Except.ok q → ∀ w : WindowKind,
      (windowAttempt q st.store tenant resource w cost now).1.allowed = true ∧
      st'.store.active (tenant, resource, w) =
        some ⟨refilledTokens (q.limit w) now
          (getOrCreate st.store.active (tenant, resource, w) (q.limit w) now) - cost,
          now⟩) ∧
    (∀ rA, d = Decision.denyQuota rA → ∃ q, resolve tier = Except.ok q ∧
      ¬((windowAttempt q st.store tenant resource WindowKind.minute cost now).1.allowed = true ∧
        (windowAttempt q st.store tenant resource WindowKind.hour cost now).1.allowed = true ∧
        (windowAttempt q st.store tenant resource WindowKind.day cost now).1.allowed = true)) := by
  unfold check at h
  cases heq : st.tracker.blocked ip with
  | none =>
    rw [heq] at h
    dsimp only at h
    exact checkUnblocked_all_or_nothing cfg st tenant tier ip resource cost now d st' h
  | some e =>
    rw [heq] at h
    dsimp only at h
    by_cases hlt : now < e
    · rw [if_pos hlt, Except.ok.injEq, Prod.mk.injEq] at h
      obtain ⟨hd, hst⟩ := h
      subst hd
      subst hst
      exact ⟨fun _ => rfl, fun habs => absurd habs (by simp),
        fun rA habs => absurd habs (by simp)⟩
    · rw [if_neg hlt] at h
      exact checkUnblocked_all_or_nothing cfg st tenant tier ip resource cost now d st' h

/-- Witness for C3: a concrete denied request leaves the bucket store
untouched. -/
theorem all_or_nothing_c3_witness :
    check defaultTrackerConfig blockedState "t" "starter" "10.0.0.1" "api" 1 0 =
      .ok (.denyBlocked 100, blockedState) ∧
    blockedState.store = blockedState.store :=
  ⟨rfl,
   (all_or_nothing_c3 defaultTrackerConfig blockedState "t" "starter" "10.0.0.1"
     "api" 1 0 (.denyBlocked 100) blockedState rfl).1 (by decide)⟩

/-- Denials recorded strictly below the threshold, all inside the sliding
window, accumulate the violation count without blocking anyone. -/
lemma runDenials_under_threshold (cfg : TrackerConfig) (tenant ip : String)
    (ts : List ℚ) (s : TrackerState) (c : ℕ) (w : ℚ)
    (hv : s.violations (tenant, ip) = some (c, w))
    (hts : ∀ t ∈ ts, ¬ cfg.window ≤ t - w)
    (hc : c + ts.length < cfg.threshold) :
    (runDenials cfg tenant ip s ts).1 = false ∧
    (runDenials cfg tenant ip s ts).2.violations (tenant, ip) =
      some (c + ts.length, w) ∧
    (runDenials cfg tenant ip s ts).2.blocked = s.blocked := by
  induction ts generalizing s c with
  | nil => exact ⟨rfl, by simpa using hv, rfl⟩
  | cons t ts' ih =>
    rw [List.length_cons] at hc
    have ht : ¬ cfg.window ≤ t - w := hts t (List.mem_cons_self t ts')
    have hts' : ∀ u ∈ ts', ¬ cfg.window ≤ u - w :=
      fun u hu => hts u (List.mem_cons_of_mem t hu)
    have hth : ¬ cfg.threshold ≤ c + 1 := by omega
    have hstep : recordDenial cfg s tenant ip t =
        (false, { s with violations :=
          fun j => if j = (tenant, ip) then some (c + 1, w) else s.violations j }) := by
      simp only [recordDenial, hv, if_neg ht, if_neg hth]
    have hchain : runDenials cfg tenant ip s (t :: ts') =
        runDenials cfg tenant ip
          { s with violations :=
            fun j => if j = (tenant, ip) then some (c + 1, w) else s.violations j }
          ts' := by
      unfold runDenials
      rw [List.foldl_cons]
      dsimp only
      rw [hstep]
    have hrec := ih
      { s with violations :=
        fun j => if j = (tenant, ip) then some (c + 1, w) else s.violations j }
      (c + 1) (by simp) hts' (by omega)
    rw [hchain]
    refine ⟨hrec.1, ?_, hrec.2.2⟩
    rw [hrec.2.1]
    simp only [List.length_cons, Option.some.injEq, Prod.mk.injEq, and_true]
    omega

/-- C5: starting from a tracker holding no record for `(tenant, ip)`, exactly
`threshold` denials recorded within the sliding window (the first opening the
window at `t1`, the rest staying inside it) make the final `recordDenial`
return `blocked = true` and install a `BlockedIp` with `expires_at =
now + block_duration` stamped at the time `tN` of the threshold-crossing
denial; every subsequent `check` call for that IP before the expiry returns
`DENY_BLOCKED` regardless of any bucket store contents. -/
theorem threshold_blocks_c5 (cfg : TrackerConfig) (tracker0 : TrackerState)
    (tenant ip : String) (t1 tN : ℚ) (mid : List ℚ)
    (h0 : tracker0.violations (tenant, ip) = none)
    (hlen : mid.length + 2 = cfg.threshold)
    (hmid : ∀ t ∈ mid, ¬ cfg.window ≤ t - t1)
    (hN : ¬ cfg.window ≤ tN - t1) :
    (runDenials cfg tenant ip tracker0 (t1 :: (mid ++ [tN]))).1 = true ∧
    (runDenials cfg tenant ip tracker0 (t1 :: (mid ++ [tN]))).2.blocked ip =
      some (tN + cfg.blockDuration) ∧
    (∀ (store : BucketStore) (tier resource : String) (cost now' : ℚ),
      now' < tN + cfg.blockDuration →
      check cfg ⟨store, (runDenials cfg tenant ip tracker0 (t1 :: (mid ++ [tN]))).2⟩
          tenant tier ip resource cost now' =
        .ok (.denyBlocked (tN + cfg.blockDuration),
          ⟨store, (runDenials cfg tenant ip tracker0 (t1 :: (mid ++ [tN]))).2⟩)) := by
  have hth1 : ¬ cfg.threshold ≤ 1 := by omega
  have hstep1 : recordDenial cfg tracker0 tenant ip t1 =
      (false, { tracker0 with violations :=
        fun j => if j = (tenant, ip) then some (1, t1) else tracker0.violations j }) := by
    simp only [recordDenial, h0, if_neg hth1]
  have hrun : runDenials cfg tenant ip tracker0 (t1 :: (mid ++ [tN])) =
      recordDenial cfg
        (runDenials cfg tenant ip
          { tracker0 with violations :=
            fun j => if j = (tenant, ip) then some (1, t1) else tracker0.violations j }
          mid).2
        tenant ip tN := by
    unfold runDenials
    rw [List.foldl_cons]
    dsimp only
    rw [hstep1, List.foldl_append, List.foldl_cons, List.foldl_nil]
  have hmidrun := runDenials_under_threshold cfg tenant ip mid
    { tracker0 with violations :=
      fun j => if j = (tenant, ip) then some (1, t1) else tracker0.violations j }
    1 t1 (by simp) hmid (by omega)
  have hthf : cfg.threshold ≤ 1 + mid.length + 1 := by omega
  have hfin : recordDenial cfg
      (runDenials cfg tenant ip
        { tracker0 with violations :=
          fun j => if j = (tenant, ip) then some (1, t1) else tracker0.violations j }
        mid).2
      tenant ip tN =
      (true,
        { violations := fun j => if j = (tenant, ip)
            then some (1 + mid.length + 1, t1)
            else (runDenials cfg tenant ip
              { tracker0 with violations :=
                fun j => if j = (tenant, ip) then some (1, t1) else tracker0.violations j }
              mid).2.violations j
          blocked := fun j => if j = ip
            then some (tN + cfg.blockDuration)
            else (runDenials cfg tenant ip
              { tracker0 with violations :=
                fun j => if j = (tenant, ip) then some (1, t1) else tracker0.violations j }
              mid).2.blocked j }) := by
    simp only [recordDenial, hmidrun.2.1, if_neg hN, if_pos hthf]
  have hblocked : (runDenials cfg tenant ip tracker0 (t1 :: (mid ++ [tN]))).2.blocked ip =
      some (tN + cfg.blockDuration) := by
    rw [hrun, hfin]
    simp
  refine ⟨by rw [hrun, hfin], hblocked, ?_⟩
  intro store tier resource cost now' hlt
  simp [check, hblocked, hlt]

/-- Witness for C5: twenty same-instant denials under the default
configuration block the IP, and the next `check` call is denied as blocked. -/
theorem threshold_blocks_c5_witness :
    freshTracker.violations ("t", "10.0.0.1") = none ∧
    (List.replicate 18 (0 : ℚ)).length + 2 = defaultTrackerConfig.threshold ∧
    (∀ t ∈ List.replicate 18 (0 : ℚ), ¬ defaultTrackerConfig.window ≤ t - 0) ∧
    ¬ defaultTrackerConfig.window ≤ (0 : ℚ) - 0 ∧
    (runDenials defaultTrackerConfig "t" "10.0.0.1" freshTracker
      ((0 : ℚ) :: (List.replicate 18 (0 : ℚ) ++ [(0 : ℚ)]))).1 = true ∧
    (runDenials defaultTrackerConfig "t" "10.0.0.1" freshTracker
      ((0 : ℚ) :: (List.replicate 18 (0 : ℚ) ++ [(0 : ℚ)]))).2.blocked "10.0.0.1" =
      some ((0 : ℚ) + defaultTrackerConfig.blockDuration) ∧
    check defaultTrackerConfig
      ⟨exampleStore, (runDenials defaultTrackerConfig "t" "10.0.0.1" freshTracker
        ((0 : ℚ) :: (List.replicate 18 (0 : ℚ) ++ [(0 : ℚ)]))).2⟩
      "t" "starter" "10.0.0.1" "api" 1 0 =
      .ok (.denyBlocked ((0 : ℚ) + defaultTrackerConfig.blockDuration),
        ⟨exampleStore, (runDenials defaultTrackerConfig "t" "10.0.0.1" freshTracker
          ((0 : ℚ) :: (List.replicate 18 (0 : ℚ) ++ [(0 : ℚ)]))).2⟩) := by
  have hwin : ∀ t ∈ List.replicate 18 (0 : ℚ),
      ¬ defaultTrackerConfig.window ≤ t - 0 := by
    intro t ht
    rw [List.eq_of_mem_replicate ht]
    simp only [sub_zero, defaultTrackerConfig]
    decide
  have hwN : ¬ defaultTrackerConfig.window ≤ (0 : ℚ) - 0 := by
    simp only [sub_zero, defaultTrackerConfig]
    decide
  have hlt : (0 : ℚ) < 0 + defaultTrackerConfig.blockDuration := by
    simp only [zero_add, defaultTrackerConfig]
    decide
  have h := threshold_blocks_c5 defaultTrackerConfig freshTracker "t" "10.0.0.1"
    0 0 (List.replicate 18 0) rfl (by decide) hwin hwN
  exact ⟨rfl, by decide, hwin, hwN, h.1, h.2.1,
    h.2.2 exampleStore "starter" "api" 1 0 hlt⟩

end Theorems
